import Mathlib

/-
Verification development for the translation orchestration core of the
bar-translator browser extension: the error taxonomy and its fixed
retry/fallback policy, the ordered fallback orchestrator, the LRU/TTL
translation cache, and the DeepL language-code mappings.

Conventions of the embedding:
- JavaScript Map iteration order is modelled by an association list in
  insertion order (head = oldest).  Map.set on an existing key updates the
  value in place, keeping the original position; on a fresh key it appends
  at the end.  Map.delete removes the unique binding of the key.
- Date.now() timestamps are passed explicitly as Int values.
- A thrown JavaScript value is either a classified TranslationError or an
  arbitrary other value, represented by its String(error) conversion.
- The module-level service registry Map is passed as an explicit lookup
  function; orchestration functions additionally return the ordered list
  of service ids whose translate method was actually invoked.
-/

set_option maxHeartbeats 1000000

-- ===========================================================================
-- Service identifiers and static metadata (src/src/types/index.ts)
-- ===========================================================================

/-- Valid translation service identifiers (type ServiceId). -/
inductive ServiceId
  | googleScraper
  | deepl
  | googleCloud
  | yandex
  | microsoft
  | baidu
  | youdao
  | lingva
deriving DecidableEq, Repr

/-- Translation service integration type (type ServiceType). -/
inductive ServiceType
  | scraping
  | api
deriving DecidableEq, Repr

/-- API tier for services with multiple tiers (type ApiTier). -/
inductive ApiTier
  | free
  | pro
deriving DecidableEq, Repr

/-- Authentication methods for API services (type AuthMethod). -/
inductive AuthMethod
  | noAuth
  | headerAuthKey
  | headerBearer
  | apiKeyHeader
deriving DecidableEq, Repr

/-- HTTP methods for service requests (type HttpMethod). -/
inductive HttpMethod
  | GET
  | POST
deriving DecidableEq, Repr

/-- Static definition of a translation service provider
(interface TranslationService).  The source field name type is a Lean
keyword and is embedded as serviceType. -/
structure TranslationService where
  id : ServiceId
  name : String
  serviceType : ServiceType
  requiresApiKey : Bool
  authMethod : AuthMethod
  httpMethod : HttpMethod
  freeEndpoint : Option String
  proEndpoint : Option String
  endpoint : Option String
  supportedLanguages : Option (List String)
  maxTextLength : Option Nat

-- ===========================================================================
-- Error taxonomy and policy (src/src/types/index.ts, src/utils/errors.ts)
-- ===========================================================================

/-- Error codes for translation failures (type TranslationErrorCode). -/
inductive TranslationErrorCode
  | NETWORK_ERROR
  | INVALID_API_KEY
  | QUOTA_EXCEEDED
  | RATE_LIMITED
  | SERVICE_UNAVAILABLE
  | INVALID_LANGUAGE
  | TEXT_TOO_LONG
  | SCRAPING_FAILED
  | AUTH_METHOD_DEPRECATED
  | ALL_SERVICES_FAILED
deriving DecidableEq, Repr

/-- Check if an error is retryable (function isRetryableError): the source
tests membership of the code in the literal list below. -/
def isRetryableError (code : TranslationErrorCode) : Bool :=
  [TranslationErrorCode.NETWORK_ERROR, TranslationErrorCode.RATE_LIMITED,
    TranslationErrorCode.SERVICE_UNAVAILABLE].contains code

/-- Check if an error should trigger fallback (function shouldFallback):
the source returns code !== INVALID_LANGUAGE && code !== TEXT_TOO_LONG. -/
def shouldFallback (code : TranslationErrorCode) : Bool :=
  code != TranslationErrorCode.INVALID_LANGUAGE &&
    code != TranslationErrorCode.TEXT_TOO_LONG

/-- Structured error for translation failures (class TranslationError).
The retryable field of the class is always computed by the constructor as
isRetryableError code, so it is embedded as the derived function
TranslationError.retryable below rather than a stored field. -/
structure TranslationError where
  code : TranslationErrorCode
  message : String
  serviceId : Option ServiceId
  httpStatus : Option Nat
deriving DecidableEq, Repr

/-- Retryable flag set by the TranslationError constructor. -/
def TranslationError.retryable (e : TranslationError) : Bool :=
  isRetryableError e.code

/-- Method TranslationError.shouldTriggerFallback. -/
def TranslationError.shouldTriggerFallback (e : TranslationError) : Bool :=
  shouldFallback e.code

-- ===========================================================================
-- Requests, results, preferences, credentials (src/src/types/index.ts)
-- ===========================================================================

/-- Parameters for a translation request (interface TranslateParams). -/
structure TranslateParams where
  text : String
  sourceLang : String
  targetLang : String
  apiKey : Option String
  tier : Option ApiTier
deriving DecidableEq, Repr

/-- Result of a translation request (interface TranslateResult). -/
structure TranslateResult where
  translation : String
  detectedSourceLang : Option String
  serviceId : ServiceId
deriving DecidableEq, Repr

/-- Extended result including request-handling metadata
(interface TranslateResultWithMeta). -/
structure TranslateResultWithMeta extends TranslateResult where
  usedFallback : Bool
  cached : Bool
deriving DecidableEq, Repr

/-- Result of API key validation (interface ValidationResult). -/
structure ValidationResult where
  valid : Bool
  error : Option String
  tier : Option ApiTier
  quotaRemaining : Option Nat
  characterLimit : Option Nat

/-- A value thrown by a translate call: either a classified
TranslationError or any other JavaScript value, represented by its
String(error) conversion. -/
inductive ThrownJsValue
  | classified (e : TranslationError)
  | other (asString : String)

/-- Translation service implementation interface
(interface TranslationServiceHandler).  The translate method either
returns a result or throws; getSupportedLanguages is omitted here since
no verified claim concerns it. -/
structure TranslationServiceHandler where
  service : TranslationService
  translate : TranslateParams → Except ThrownJsValue TranslateResult
  validateApiKey : Option (String → ValidationResult)

/-- User preferences (interface UserPreferences); languageOverrides is an
association list standing for the source record. -/
structure UserPreferences where
  preferredServiceId : ServiceId
  fallbackOrder : List ServiceId
  fallbackEnabled : Bool
  defaultTargetLang : String
  defaultSourceLang : String
  storageType : String
  languageOverrides : List (String × String)
  telemetryEnabled : Bool
  distinctId : String

/-- Stored API credential for a single service (interface ApiCredential). -/
structure ApiCredential where
  key : String
  tier : Option ApiTier
  validated : Bool
  lastValidated : Option Int
deriving DecidableEq, Repr

/-- Collection of stored API credentials (interface StoredApiKeys). -/
structure StoredApiKeys where
  deepl : Option ApiCredential
  googleCloud : Option ApiCredential
  yandex : Option ApiCredential
  microsoft : Option ApiCredential
  baidu : Option ApiCredential
  youdao : Option ApiCredential
deriving DecidableEq, Repr

/-- Named slots of the StoredApiKeys record (keyof StoredApiKeys). -/
inductive ApiKeySlot
  | deepl
  | googleCloud
  | yandex
  | microsoft
  | baidu
  | youdao
deriving DecidableEq, Repr

/-- Field access apiKeys[storageKey] for a slot name. -/
def StoredApiKeys.slot (apiKeys : StoredApiKeys) : ApiKeySlot → Option ApiCredential
  | ApiKeySlot.deepl => apiKeys.deepl
  | ApiKeySlot.googleCloud => apiKeys.googleCloud
  | ApiKeySlot.yandex => apiKeys.yandex
  | ApiKeySlot.microsoft => apiKeys.microsoft
  | ApiKeySlot.baidu => apiKeys.baidu
  | ApiKeySlot.youdao => apiKeys.youdao

-- ===========================================================================
-- Orchestrator (src/services/index.ts)
-- ===========================================================================

/-- Function getStorageKeyForService: maps a service id to the slot of the
stored-credentials record holding its key, or none for keyless services. -/
def getStorageKeyForService : ServiceId → Option ApiKeySlot
  | ServiceId.deepl => some ApiKeySlot.deepl
  | ServiceId.googleCloud => some ApiKeySlot.googleCloud
  | ServiceId.yandex => some ApiKeySlot.yandex
  | ServiceId.microsoft => some ApiKeySlot.microsoft
  | ServiceId.baidu => some ApiKeySlot.baidu
  | ServiceId.youdao => some ApiKeySlot.youdao
  | ServiceId.googleScraper => none
  | ServiceId.lingva => none

/-- The registry Map, as a lookup function (serviceRegistry.get). -/
def Registry : Type := ServiceId → Option TranslationServiceHandler

/-- Function isServiceAvailable: registered, and if the service requires an
API key and has a credential slot, the stored credential must be present
and validated (credential?.validated === true). -/
def isServiceAvailable (registry : Registry) (id : ServiceId)
    (apiKeys : StoredApiKeys) : Bool :=
  match registry id with
  | none => false
  | some handler =>
    if !handler.service.requiresApiKey then true
    else
      match getStorageKeyForService id with
      | none => true
      | some storageKey =>
        match apiKeys.slot storageKey with
        | some credential => credential.validated
        | none => false

/-- Per-iteration argument construction of translateWithFallback:
the spread of params with apiKey and tier resolved from storage
(apiKeys[storageKey]?.key and apiKeys[storageKey]?.tier). -/
def resolveParams (params : TranslateParams) (apiKeys : StoredApiKeys)
    (id : ServiceId) : TranslateParams :=
  { params with
    apiKey := (getStorageKeyForService id).bind
      (fun storageKey => (apiKeys.slot storageKey).map (fun c => c.key)),
    tier := (getStorageKeyForService id).bind
      (fun storageKey => (apiKeys.slot storageKey).bind (fun c => c.tier)) }

/-- The for-loop of translateWithFallback over the available service list.
Returns the outcome together with the ordered list of service ids whose
translate method was invoked.  The index i is the loop counter of the
source (isFallback = i > 0); the source test i === length - 1 inside the
catch block is rendered structurally as rest.isEmpty, which coincides with
it at every call.  A service whose handler is missing is skipped, matching
the continue branch. -/
def fallbackLoop (registry : Registry) (apiKeys : StoredApiKeys)
    (params : TranslateParams) :
    List ServiceId → Nat → Option TranslationError →
      Except TranslationError TranslateResultWithMeta × List ServiceId
  | [], _, lastError =>
    (Except.error (lastError.getD
      (TranslationError.mk TranslationErrorCode.ALL_SERVICES_FAILED
        ( "All services failed" ) none none)), [])
  | id :: rest, i, lastError =>
    match registry id with
    | none => fallbackLoop registry apiKeys params rest (i + 1) lastError
    | some handler =>
      match handler.translate (resolveParams params apiKeys id) with
      | Except.ok r =>
        (Except.ok (TranslateResultWithMeta.mk r (decide (0 < i)) false), [id])
      | Except.error (ThrownJsValue.classified e) =>
        if e.shouldTriggerFallback then
          if rest.isEmpty then (Except.error e, [id])
          else
            let next := fallbackLoop registry apiKeys params rest (i + 1) (some e)
            (next.1, id :: next.2)
        else (Except.error e, [id])
      | Except.error (ThrownJsValue.other s) =>
        let wrapped := TranslationError.mk
          TranslationErrorCode.SERVICE_UNAVAILABLE s (some id) none
        if rest.isEmpty then (Except.error wrapped, [id])
        else
          let next := fallbackLoop registry apiKeys params rest (i + 1) (some wrapped)
          (next.1, id :: next.2)

/-- Function translateWithFallback: preferences.fallbackOrder is the
complete enabled list; it is filtered to available services and tried in
order by fallbackLoop.  The second component is the list of invoked
service ids. -/
def translateWithFallback (registry : Registry) (params : TranslateParams)
    (preferences : UserPreferences) (apiKeys : StoredApiKeys) :
    Except TranslationError TranslateResultWithMeta × List ServiceId :=
  let enabledServices := preferences.fallbackOrder
  if enabledServices.isEmpty then
    (Except.error (TranslationError.mk TranslationErrorCode.ALL_SERVICES_FAILED
      ( "No translation services enabled. Enable at least one service in settings." )
      none none), [])
  else
    let availableServices := enabledServices.filter
      (fun id => isServiceAvailable registry id apiKeys)
    if availableServices.isEmpty then
      (Except.error (TranslationError.mk TranslationErrorCode.ALL_SERVICES_FAILED
        ( "No translation services available. Check API key configuration." )
        none none), [])
    else fallbackLoop registry apiKeys params availableServices 0 none

-- ===========================================================================
-- Translation cache (src/utils/cache.ts, embedded from src/unnamed/part_004)
-- ===========================================================================

/-- Single cache entry (interface CacheEntry). -/
structure CacheEntry where
  result : String
  timestamp : Int
  serviceId : ServiceId
  detectedLang : Option String
deriving DecidableEq, Repr

/-- JavaScript Map.get on an association list in insertion order. -/
def mapGet (key : String) (l : List (String × CacheEntry)) : Option CacheEntry :=
  (l.find? (fun p => p.1 == key)).map (fun p => p.2)

/-- JavaScript Map.delete: removes the binding of the key, keeping the
order of the remaining entries. -/
def mapDelete (key : String) (l : List (String × CacheEntry)) :
    List (String × CacheEntry) :=
  l.filter (fun p => p.1 != key)

/-- JavaScript Map.set: on an existing key the value is updated in place
and the key keeps its original position in iteration order; a fresh key is
appended at the end (most recent). -/
def mapSet (key : String) (v : CacheEntry) (l : List (String × CacheEntry)) :
    List (String × CacheEntry) :=
  if l.any (fun p => p.1 == key) then
    l.map (fun p => if p.1 == key then (key, v) else p)
  else l ++ [(key, v)]

/-- LRU translation cache (class TranslationCache): the backing Map in
iteration order plus the CacheConfig fields. -/
structure TranslationCache where
  entries : List (String × CacheEntry)
  maxSize : Nat
  ttl : Int
deriving DecidableEq, Repr

/-- Keys of the cache in Map iteration order (oldest first). -/
def cacheKeys (c : TranslationCache) : List String :=
  c.entries.map Prod.fst

/-- Getter TranslationCache.size. -/
def TranslationCache.size (c : TranslationCache) : Nat :=
  c.entries.length

/-- Method TranslationCache.get at time now: null if absent; if the entry
age exceeds the ttl it is deleted and null returned; otherwise the entry
is deleted and re-added (moved to the end for LRU) and returned. -/
def TranslationCache.get (c : TranslationCache) (now : Int) (key : String) :
    Option CacheEntry × TranslationCache :=
  match mapGet key c.entries with
  | none => (none, c)
  | some entry =>
    if now - entry.timestamp > c.ttl then
      (none, { c with entries := mapDelete key c.entries })
    else
      (some entry, { c with entries := mapSet key entry (mapDelete key c.entries) })

/-- Method TranslationCache.set at time now: if the cache is at capacity,
the first key yielded by the Map iterator (the oldest) is deleted, guarded
by the source truthiness test if (oldest), which skips the deletion when
that key is the empty string; then the new entry is stored with Map.set. -/
def TranslationCache.set (c : TranslationCache) (now : Int) (key : String)
    (result : String) (serviceId : ServiceId) (detectedLang : Option String) :
    TranslationCache :=
  { c with entries :=
      (mapSet key (CacheEntry.mk result now serviceId detectedLang)
        (if c.entries.length ≥ c.maxSize then
          (match c.entries.head? with
            | some (oldestKey, _) =>
              if oldestKey == "" then c.entries
              else mapDelete oldestKey c.entries
            | none => c.entries)
        else c.entries)) }

/-- Method TranslationCache.has: returns this.get(key) !== null, so it
inherits every side effect of get. -/
def TranslationCache.has (c : TranslationCache) (now : Int) (key : String) :
    Bool × TranslationCache :=
  let r := c.get now key
  (r.1.isSome, r.2)

-- ===========================================================================
-- Language code mappings (src/utils/languages.ts)
-- ===========================================================================

/-- Language information (interface LanguageInfo). -/
structure LanguageInfo where
  code : String
  name : String
  nativeName : Option String
  supportsAutoDetect : Option Bool
deriving DecidableEq, Repr

/-- Common languages supported by translation services
(constant COMMON_LANGUAGES). -/
def COMMON_LANGUAGES : List LanguageInfo := [
  ⟨ "auto", "Auto-detect", none, some true⟩,
  ⟨ "en", "English", some ( "English" ), none⟩,
  ⟨ "es", "Spanish", some ( "Español" ), none⟩,
  ⟨ "fr", "French", some ( "Français" ), none⟩,
  ⟨ "de", "German", some ( "Deutsch" ), none⟩,
  ⟨ "it", "Italian", some ( "Italiano" ), none⟩,
  ⟨ "pt", "Portuguese", some ( "Português" ), none⟩,
  ⟨ "pt-BR", "Portuguese (Brazil)", some ( "Português (Brasil)" ), none⟩,
  ⟨ "ru", "Russian", some ( "Русский" ), none⟩,
  ⟨ "zh-CN", "Chinese (Simplified)", some ( "简体中文" ), none⟩,
  ⟨ "zh-TW", "Chinese (Traditional)", some ( "繁體中文" ), none⟩,
  ⟨ "ja", "Japanese", some ( "日本語" ), none⟩,
  ⟨ "ko", "Korean", some ( "한국어" ), none⟩,
  ⟨ "ar", "Arabic", some ( "العربية" ), none⟩,
  ⟨ "hi", "Hindi", some ( "हिन्दी" ), none⟩,
  ⟨ "nl", "Dutch", some ( "Nederlands" ), none⟩,
  ⟨ "pl", "Polish", some ( "Polski" ), none⟩,
  ⟨ "tr", "Turkish", some ( "Türkçe" ), none⟩,
  ⟨ "vi", "Vietnamese", some ( "Tiếng Việt" ), none⟩,
  ⟨ "th", "Thai", some ( "ไทย" ), none⟩,
  ⟨ "uk", "Ukrainian", some ( "Українська" ), none⟩,
  ⟨ "cs", "Czech", some ( "Čeština" ), none⟩,
  ⟨ "el", "Greek", some ( "Ελληνικά" ), none⟩,
  ⟨ "he", "Hebrew", some ( "עברית" ), none⟩,
  ⟨ "sv", "Swedish", some ( "Svenska" ), none⟩,
  ⟨ "da", "Danish", some ( "Dansk" ), none⟩,
  ⟨ "fi", "Finnish", some ( "Suomi" ), none⟩,
  ⟨ "nb", "Norwegian", some ( "Norsk" ), none⟩,
  ⟨ "hu", "Hungarian", some ( "Magyar" ), none⟩,
  ⟨ "ro", "Romanian", some ( "Română" ), none⟩,
  ⟨ "sk", "Slovak", some ( "Slovenčina" ), none⟩,
  ⟨ "bg", "Bulgarian", some ( "Български" ), none⟩,
  ⟨ "id", "Indonesian", some ( "Bahasa Indonesia" ), none⟩]

/-- JavaScript String.prototype.toLowerCase restricted to the ASCII range,
written over the character list so that it evaluates by kernel reduction. -/
def jsToLower (s : String) : String :=
  String.mk (s.data.map Char.toLower)

/-- JavaScript String.prototype.toUpperCase restricted to the ASCII range,
written over the character list so that it evaluates by kernel reduction. -/
def jsToUpper (s : String) : String :=
  String.mk (s.data.map Char.toUpper)

/-- JavaScript s.split(hyphen)[0]: the prefix of the string before the
first hyphen, or the whole string when it has none. -/
def baseSubtag (s : String) : String :=
  String.mk (s.data.takeWhile (fun ch => ch != '-'))

/-- Lookup in a literal string-keyed record (JavaScript object access). -/
def lookupRecord (m : List (String × String)) (key : String) : Option String :=
  (m.find? (fun p => p.1 == key)).map (fun p => p.2)

/-- DeepL language code mapping (constant DEEPL_LANG_MAP). -/
def DEEPL_LANG_MAP : List (String × String) := [
  ( "en", "EN"),
  ( "en-us", "EN-US"),
  ( "en-gb", "EN-GB"),
  ( "pt", "PT-PT"),
  ( "pt-br", "PT-BR"),
  ( "pt-pt", "PT-PT"),
  ( "zh-cn", "ZH-HANS"),
  ( "zh-tw", "ZH-HANT"),
  ( "zh", "ZH-HANS"),
  ( "nb", "NB"),
  ( "no", "NB")]

/-- Function toDeepLLanguage: auto passes through; otherwise the
lowercased code is looked up in DEEPL_LANG_MAP with an uppercase default. -/
def toDeepLLanguage (code : String) : String :=
  if code == "auto" then code
  else
    let normalized := jsToLower code
    (lookupRecord DEEPL_LANG_MAP normalized).getD (jsToUpper code)

/-- Function fromDeepLLanguage: finite reverse table for the DeepL
special codes, defaulting to the lowercased base subtag
(code.toLowerCase().split(hyphen)[0]). -/
def fromDeepLLanguage (code : String) : String :=
  let upper := jsToUpper code
  if upper == "ZH-HANS" || upper == "ZH" then "zh-CN"
  else if upper == "ZH-HANT" then "zh-TW"
  else if upper == "PT-PT" || upper == "PT" then "pt"
  else if upper == "PT-BR" then "pt-BR"
  else if upper == "NB" then "nb"
  else baseSubtag (jsToLower code)

/-- Function normalizeLanguageCode: lowercased base subtag,
code.toLowerCase().split(hyphen)[0]. -/
def normalizeLanguageCode (code : String) : String :=
  baseSubtag (jsToLower code)

-- ===========================================================================
-- Concrete instances used by the witness theorems
-- ===========================================================================

/-- Static definition of the google-scraper service (services/base). -/
def wGoogleService : TranslationService :=
  ⟨ServiceId.googleScraper, "Google Translate", ServiceType.scraping, false,
    AuthMethod.noAuth, HttpMethod.GET, none, none,
    some ( "https://translate.google.com/m" ), none, some 5000⟩

/-- Static definition of the lingva service (services/base). -/
def wLingvaService : TranslationService :=
  ⟨ServiceId.lingva, "Lingva Translate", ServiceType.api, false,
    AuthMethod.noAuth, HttpMethod.GET, none, none,
    some ( "https://lingva.ml/api/v1" ), none, some 7500⟩

/-- A classified network error raised by the first witness provider. -/
def wNetworkError : TranslationError :=
  ⟨TranslationErrorCode.NETWORK_ERROR, "fetch failed",
    some ServiceId.googleScraper, none⟩

/-- A classified invalid-language error raised by the first witness provider. -/
def wInvalidLangError : TranslationError :=
  ⟨TranslationErrorCode.INVALID_LANGUAGE, "Unsupported language code",
    some ServiceId.googleScraper, none⟩

/-- A classified service-unavailable error raised by the lingva witness
provider. -/
def wLingvaError : TranslationError :=
  ⟨TranslationErrorCode.SERVICE_UNAVAILABLE, "HTTP error 503",
    some ServiceId.lingva, some 503⟩

/-- A successful witness result. -/
def wOkResult : TranslateResult :=
  ⟨ "Hola", some ( "en" ), ServiceId.lingva⟩

/-- Handler whose translate call always fails with wNetworkError. -/
def wFailingHandler : TranslationServiceHandler :=
  ⟨wGoogleService,
    fun _ => Except.error (ThrownJsValue.classified wNetworkError), none⟩

/-- Handler whose translate call always fails with wInvalidLangError. -/
def wInvalidLangHandler : TranslationServiceHandler :=
  ⟨wGoogleService,
    fun _ => Except.error (ThrownJsValue.classified wInvalidLangError), none⟩

/-- Handler whose translate call always throws a non-classified value. -/
def wRawHandler : TranslationServiceHandler :=
  ⟨wGoogleService,
    fun _ => Except.error (ThrownJsValue.other ( "TypeError: boom" )), none⟩

/-- Handler whose translate call always succeeds with wOkResult. -/
def wOkHandler : TranslationServiceHandler :=
  ⟨wLingvaService, fun _ => Except.ok wOkResult, none⟩

/-- Handler whose translate call always fails with wLingvaError. -/
def wFailingLingvaHandler : TranslationServiceHandler :=
  ⟨wLingvaService,
    fun _ => Except.error (ThrownJsValue.classified wLingvaError), none⟩

/-- Registry for the fallback-success witness: google-scraper fails with a
network error, lingva succeeds. -/
def wRegistry : Registry := fun id =>
  match id with
  | ServiceId.googleScraper => some wFailingHandler
  | ServiceId.lingva => some wOkHandler
  | _ => none

/-- Registry for the non-fallback witness: google-scraper fails with an
invalid-language error, lingva would succeed. -/
def wRegistryNoFb : Registry := fun id =>
  match id with
  | ServiceId.googleScraper => some wInvalidLangHandler
  | ServiceId.lingva => some wOkHandler
  | _ => none

/-- Registry for the all-fail witness: both providers fail with distinct
classified fallback-triggering errors. -/
def wRegistryAllFail : Registry := fun id =>
  match id with
  | ServiceId.googleScraper => some wFailingHandler
  | ServiceId.lingva => some wFailingLingvaHandler
  | _ => none

/-- Registry for the unclassified-throw witness: google-scraper throws a
raw value. -/
def wRegistryRaw : Registry := fun id =>
  match id with
  | ServiceId.googleScraper => some wRawHandler
  | _ => none

/-- Handler assignment used by the witness hypotheses. -/
def wH : ServiceId → TranslationServiceHandler := fun id =>
  match id with
  | ServiceId.lingva => wFailingLingvaHandler
  | _ => wFailingHandler

/-- Error assignment used by the witness hypotheses. -/
def wE : ServiceId → TranslationError := fun id =>
  match id with
  | ServiceId.lingva => wLingvaError
  | _ => wNetworkError

/-- Witness request parameters. -/
def wParams : TranslateParams := ⟨ "Hello", "en", "es", none, none⟩

/-- Witness preferences with both keyless providers enabled. -/
def wPrefs : UserPreferences :=
  ⟨ServiceId.googleScraper, [ServiceId.googleScraper, ServiceId.lingva],
    true, "es", "auto", "local", [], false, "w-id"⟩

/-- Witness preferences with only google-scraper enabled. -/
def wPrefsSingle : UserPreferences :=
  ⟨ServiceId.googleScraper, [ServiceId.googleScraper],
    true, "es", "auto", "local", [], false, "w-id"⟩

/-- Witness credential store with no keys. -/
def wKeys : StoredApiKeys := ⟨none, none, none, none, none, none⟩

/-- Witness cache entries. -/
def wEntryA : CacheEntry := ⟨ "va", 0, ServiceId.deepl, none⟩

/-- Second witness cache entry. -/
def wEntryB : CacheEntry := ⟨ "vb", 10, ServiceId.deepl, none⟩

/-- A cache at capacity 2 holding keys a then b (a oldest). -/
def wCache2 : TranslationCache :=
  ⟨[( "a", wEntryA ), ( "b", wEntryB )], 2, 1000⟩

/-- A cache below capacity 3 holding keys a then b (a oldest). -/
def wCache3 : TranslationCache :=
  ⟨[( "a", wEntryA ), ( "b", wEntryB )], 3, 1000⟩

/-- A single-entry cache whose entry is stale at time 2000. -/
def wCacheExp : TranslationCache :=
  ⟨[( "k", wEntryA )], 500, 1000⟩

-- ===========================================================================
-- Association-list lemmas for the JavaScript Map model
-- ===========================================================================

/-- A successful mapGet means the pair is a member of the list. -/
theorem mem_of_mapGet {key : String} {l : List (String × CacheEntry)}
    {e : CacheEntry} (h : mapGet key l = some e) : (key, e) ∈ l := by
  unfold mapGet at h
  cases hf : l.find? (fun p => p.1 == key) with
  | none => rw [hf] at h; simp at h
  | some p =>
    rw [hf] at h
    have hp := @List.find?_some _ (fun q : String × CacheEntry => q.1 == key) p l hf
    have hmem : p ∈ l := List.mem_of_find?_eq_some hf
    have h1 : p.1 = key := by simpa using hp
    have h2 : p.2 = e := by simpa using h
    have : p = (key, e) := by
      cases p
      simp only [Prod.mk.injEq]
      exact ⟨h1, h2⟩
    rwa [this] at hmem

/-- A successful mapGet means the key is among the keys. -/
theorem mapGet_mem_keys {key : String} {l : List (String × CacheEntry)}
    {e : CacheEntry} (h : mapGet key l = some e) : key ∈ l.map Prod.fst :=
  List.mem_map.mpr ⟨(key, e), mem_of_mapGet h, rfl⟩

/-- After mapDelete the key is gone. -/
theorem not_mem_keys_mapDelete (key : String) (l : List (String × CacheEntry)) :
    key ∉ (mapDelete key l).map Prod.fst := by
  unfold mapDelete
  intro h
  obtain ⟨p, hp, hk⟩ := List.mem_map.mp h
  have hne : (p.1 != key) = true := (List.mem_filter.mp hp).2
  rw [bne_iff_ne] at hne
  exact hne hk

/-- Deleting an absent key changes nothing. -/
theorem mapDelete_eq_self {key : String} {l : List (String × CacheEntry)}
    (h : key ∉ l.map Prod.fst) : mapDelete key l = l := by
  unfold mapDelete
  apply List.filter_eq_self.mpr
  intro p hp
  rw [bne_iff_ne]
  intro hk
  exact h (List.mem_map.mpr ⟨p, hp, hk⟩)

/-- Deleting the head key reduces to deleting in the tail. -/
theorem mapDelete_cons_self (k₀ : String) (e₀ : CacheEntry)
    (t : List (String × CacheEntry)) :
    mapDelete k₀ ((k₀, e₀) :: t) = mapDelete k₀ t := by
  unfold mapDelete
  simp [List.filter_cons]

/-- With distinct keys, deleting a present key removes exactly one entry. -/
theorem length_mapDelete {key : String} {l : List (String × CacheEntry)}
    (hnd : (l.map Prod.fst).Nodup) (hmem : key ∈ l.map Prod.fst) :
    (mapDelete key l).length + 1 = l.length := by
  induction l with
  | nil => simp at hmem
  | cons a t ih =>
    simp only [List.map_cons, List.nodup_cons] at hnd
    by_cases hk : a.1 = key
    · rw [← hk]
      rw [show a = (a.1, a.2) from rfl, mapDelete_cons_self]
      rw [mapDelete_eq_self (hk ▸ hnd.1)]
      simp
    · have hmem2 : key ∈ t.map Prod.fst := by
        simp only [List.map_cons, List.mem_cons] at hmem
        rcases hmem with h1 | h1
        · exact absurd h1.symm hk
        · exact h1
      unfold mapDelete
      rw [List.filter_cons, if_pos (by rw [bne_iff_ne]; exact hk)]
      have := ih hnd.2 hmem2
      unfold mapDelete at this
      simp only [List.length_cons]
      omega

/-- Entries with a different key survive mapDelete. -/
theorem mem_mapDelete_of_ne {p : String × CacheEntry}
    {l : List (String × CacheEntry)} {key : String}
    (hp : p ∈ l) (hne : p.1 ≠ key) : p ∈ mapDelete key l := by
  unfold mapDelete
  exact List.mem_filter.mpr ⟨hp, by rw [bne_iff_ne]; exact hne⟩

/-- mapDelete only removes keys. -/
theorem keys_mapDelete_subset (key : String) (l : List (String × CacheEntry)) :
    (mapDelete key l).map Prod.fst ⊆ l.map Prod.fst := by
  unfold mapDelete
  intro x hx
  obtain ⟨p, hp, rfl⟩ := List.mem_map.mp hx
  exact List.mem_map.mpr ⟨p, (List.mem_filter.mp hp).1, rfl⟩

/-- Map.set on a fresh key appends at the end. -/
theorem mapSet_of_not_mem {key : String} {l : List (String × CacheEntry)}
    (h : key ∉ l.map Prod.fst) (v : CacheEntry) :
    mapSet key v l = l ++ [(key, v)] := by
  have hfalse : l.any (fun p => p.1 == key) = false := by
    rw [List.any_eq_false]
    intro p hp
    simp only [beq_iff_eq]
    intro hk
    exact h (List.mem_map.mpr ⟨p, hp, hk⟩)
  unfold mapSet
  rw [hfalse]
  rfl

/-- Map.set on an existing key keeps the key sequence unchanged. -/
theorem keys_mapSet_of_mem {key : String} {l : List (String × CacheEntry)}
    (h : key ∈ l.map Prod.fst) (v : CacheEntry) :
    (mapSet key v l).map Prod.fst = l.map Prod.fst := by
  have htrue : l.any (fun p => p.1 == key) = true := by
    rw [List.any_eq_true]
    obtain ⟨p, hp, hk⟩ := List.mem_map.mp h
    exact ⟨p, hp, by rw [beq_iff_eq]; exact hk⟩
  unfold mapSet
  rw [htrue]
  simp only [if_true, List.map_map]
  apply List.map_congr_left
  intro p hp
  by_cases hk : p.1 = key
  · simp [hk]
  · simp [hk]

-- ===========================================================================
-- Specification lemmas for TranslationCache.get
-- ===========================================================================

/-- get on an absent key returns null and leaves the cache unchanged. -/
theorem get_absent {c : TranslationCache} {now : Int} {key : String}
    (h : mapGet key c.entries = none) : c.get now key = (none, c) := by
  unfold TranslationCache.get
  rw [h]

/-- get on a stale entry returns null and deletes the entry. -/
theorem get_expired {c : TranslationCache} {now : Int} {key : String}
    {e : CacheEntry} (h : mapGet key c.entries = some e)
    (hexp : now - e.timestamp > c.ttl) :
    c.get now key = (none, { c with entries := mapDelete key c.entries }) := by
  unfold TranslationCache.get
  rw [h]
  dsimp only
  rw [if_pos hexp]

/-- get on a live entry returns it and moves it to the end. -/
theorem get_live {c : TranslationCache} {now : Int} {key : String}
    {e : CacheEntry} (h : mapGet key c.entries = some e)
    (hexp : ¬ now - e.timestamp > c.ttl) :
    c.get now key =
      (some e, { c with entries := mapDelete key c.entries ++ [(key, e)] }) := by
  unfold TranslationCache.get
  rw [h]
  dsimp only
  rw [if_neg hexp,
    mapSet_of_not_mem (not_mem_keys_mapDelete key c.entries) e]

-- ===========================================================================
-- Claims about the error policy (C4, C5)
-- ===========================================================================

/-- Claim C4, counterexample: contrary to the claim, the fallback-trigger
predicate shouldFallback returns true, not false, on the error kind
ALL_SERVICES_FAILED. -/
theorem allServicesFailed_triggers_fallback :
    shouldFallback TranslationErrorCode.ALL_SERVICES_FAILED = true := by decide

/-- Claim C4, amended: the fixed policy marks every kind as
fallback-triggering except INVALID_LANGUAGE and TEXT_TOO_LONG; in
particular shouldFallback returns true on ALL_SERVICES_FAILED, which is
terminal only because the orchestrator throws it directly without
consulting the policy. -/
theorem shouldFallback_policy :
    shouldFallback TranslationErrorCode.ALL_SERVICES_FAILED = true ∧
    shouldFallback TranslationErrorCode.INVALID_LANGUAGE = false ∧
    shouldFallback TranslationErrorCode.TEXT_TOO_LONG = false ∧
    shouldFallback TranslationErrorCode.NETWORK_ERROR = true ∧
    shouldFallback TranslationErrorCode.INVALID_API_KEY = true ∧
    shouldFallback TranslationErrorCode.QUOTA_EXCEEDED = true ∧
    shouldFallback TranslationErrorCode.RATE_LIMITED = true ∧
    shouldFallback TranslationErrorCode.SERVICE_UNAVAILABLE = true ∧
    shouldFallback TranslationErrorCode.SCRAPING_FAILED = true ∧
    shouldFallback TranslationErrorCode.AUTH_METHOD_DEPRECATED = true := by
  decide

/-- Claim C5, counterexample: contrary to the claim, isRetryableError
returns true on SERVICE_UNAVAILABLE, and a constructed TranslationError of
that kind therefore carries retryable = true. -/
theorem serviceUnavailable_is_retryable :
    isRetryableError TranslationErrorCode.SERVICE_UNAVAILABLE = true ∧
    (TranslationError.mk TranslationErrorCode.SERVICE_UNAVAILABLE
      ( "Service unavailable" ) none none).retryable = true := by decide

/-- Claim C5, amended: the fixed retryable flag is true exactly for the
kinds NETWORK_ERROR, RATE_LIMITED and SERVICE_UNAVAILABLE, and false for
every other kind of the closed taxonomy. -/
theorem isRetryableError_policy :
    isRetryableError TranslationErrorCode.NETWORK_ERROR = true ∧
    isRetryableError TranslationErrorCode.RATE_LIMITED = true ∧
    isRetryableError TranslationErrorCode.SERVICE_UNAVAILABLE = true ∧
    isRetryableError TranslationErrorCode.INVALID_API_KEY = false ∧
    isRetryableError TranslationErrorCode.QUOTA_EXCEEDED = false ∧
    isRetryableError TranslationErrorCode.INVALID_LANGUAGE = false ∧
    isRetryableError TranslationErrorCode.TEXT_TOO_LONG = false ∧
    isRetryableError TranslationErrorCode.SCRAPING_FAILED = false ∧
    isRetryableError TranslationErrorCode.AUTH_METHOD_DEPRECATED = false ∧
    isRetryableError TranslationErrorCode.ALL_SERVICES_FAILED = false := by
  decide

-- ===========================================================================
-- Claim about the DeepL language round trip (C8)
-- ===========================================================================

/-- Claim C8: for every language code of the supported set, mapping to the
DeepL wire format and back recovers the base language subtag of the
original code up to case. -/
theorem deepl_roundtrip_base_subtag :
    ∀ li ∈ COMMON_LANGUAGES,
      normalizeLanguageCode (fromDeepLLanguage (toDeepLLanguage li.code)) =
        normalizeLanguageCode li.code := by decide

/-- Witness for claim C8 at the code zh-CN. -/
theorem deepl_roundtrip_base_subtag_witness :
    (⟨ "zh-CN", "Chinese (Simplified)", some ( "简体中文" ), none⟩ : LanguageInfo)
      ∈ COMMON_LANGUAGES ∧
    normalizeLanguageCode (fromDeepLLanguage (toDeepLLanguage ( "zh-CN" ))) =
      normalizeLanguageCode ( "zh-CN" ) :=
  ⟨by decide, deepl_roundtrip_base_subtag
    (⟨ "zh-CN", "Chinese (Simplified)", some ( "简体中文" ), none⟩ : LanguageInfo)
    (by decide)⟩

-- ===========================================================================
-- Claims about the translation cache (C6, C7, C9)
-- ===========================================================================

/-- Claim C6, counterexample: in a below-capacity cache holding keys a then
b, a set to the existing key a overwrites its value but does not promote
the entry: the most recently used key afterwards is still b, not a. -/
theorem set_existing_key_not_promoted :
    ( "a" ) ∈ cacheKeys wCache3 ∧
    wCache3.entries.length < wCache3.maxSize ∧
    mapGet ( "a" ) (wCache3.set 20 ( "a" ) ( "va2" ) ServiceId.deepl none).entries
      = some (CacheEntry.mk ( "va2" ) 20 ServiceId.deepl none) ∧
    ((wCache3.set 20 ( "a" ) ( "va2" ) ServiceId.deepl none).entries.getLast?.map
        Prod.fst = some ( "b" )) ∧
    some ( "b" ) ≠ some ( "a" ) :=
  ⟨by decide, by decide, rfl, rfl, by decide⟩

/-- Claim C7: with distinct cache keys, a get on a key whose entry is
older than the ttl returns null, removes exactly that entry (the key is
gone and the size drops by one); a get on a key within the ttl returns the
entry and promotes it to most-recently-used. -/
theorem cache_get_ttl_spec (c : TranslationCache) (now : Int) (key : String)
    (e : CacheEntry) (hnd : (cacheKeys c).Nodup)
    (hfind : mapGet key c.entries = some e) :
    (now - e.timestamp > c.ttl →
      (c.get now key).1 = none ∧
      key ∉ cacheKeys (c.get now key).2 ∧
      (c.get now key).2.size + 1 = c.size) ∧
    (¬ now - e.timestamp > c.ttl →
      (c.get now key).1 = some e ∧
      (c.get now key).2.entries.getLast? = some (key, e)) := by
  constructor
  · intro hexp
    rw [get_expired hfind hexp]
    refine ⟨rfl, ?_, ?_⟩
    · exact not_mem_keys_mapDelete key c.entries
    · exact length_mapDelete hnd (mapGet_mem_keys hfind)
  · intro hlive
    rw [get_live hfind hlive]
    exact ⟨rfl, List.getLast?_concat _⟩

/-- Witness for claim C7: the single entry of wCacheExp is stale at time
2000, so get returns null, removes the key and shrinks the cache. -/
theorem cache_get_ttl_spec_witness :
    (cacheKeys wCacheExp).Nodup ∧
    mapGet ( "k" ) wCacheExp.entries = some wEntryA ∧
    ((2000 : Int) - wEntryA.timestamp > wCacheExp.ttl) ∧
    ((wCacheExp.get 2000 ( "k" )).1 = none ∧
      ( "k" ) ∉ cacheKeys (wCacheExp.get 2000 ( "k" )).2 ∧
      (wCacheExp.get 2000 ( "k" )).2.size + 1 = wCacheExp.size) :=
  ⟨by decide, rfl, by decide,
    (cache_get_ttl_spec wCacheExp 2000 ( "k" ) wEntryA (by decide) rfl).1
      (by decide)⟩

/-- Claim C9: has delegates to get, so with distinct cache keys a has on a
stale entry returns false, removes exactly that entry (size drops by one,
every other entry survives unchanged in order), and a has on a live entry
returns true and promotes exactly that entry to most-recently-used,
leaving every other entry in place. -/
theorem cache_has_effects_spec (c : TranslationCache) (now : Int)
    (key : String) (e : CacheEntry) (hnd : (cacheKeys c).Nodup)
    (hfind : mapGet key c.entries = some e) :
    (now - e.timestamp > c.ttl →
      (c.has now key).1 = false ∧
      (c.has now key).2.entries = mapDelete key c.entries ∧
      (c.has now key).2.size + 1 = c.size ∧
      ∀ p ∈ c.entries, p.1 ≠ key → p ∈ (c.has now key).2.entries) ∧
    (¬ now - e.timestamp > c.ttl →
      (c.has now key).1 = true ∧
      (c.has now key).2.entries = mapDelete key c.entries ++ [(key, e)] ∧
      (c.has now key).2.entries.getLast? = some (key, e) ∧
      ∀ p ∈ c.entries, p.1 ≠ key → p ∈ (c.has now key).2.entries) := by
  constructor
  · intro hexp
    unfold TranslationCache.has
    rw [get_expired hfind hexp]
    refine ⟨rfl, rfl, length_mapDelete hnd (mapGet_mem_keys hfind), ?_⟩
    intro p hp hne
    exact mem_mapDelete_of_ne hp hne
  · intro hlive
    unfold TranslationCache.has
    rw [get_live hfind hlive]
    refine ⟨rfl, rfl, List.getLast?_concat _, ?_⟩
    intro p hp hne
    exact List.mem_append_left _ (mem_mapDelete_of_ne hp hne)

/-- Witness for claim C9: a live entry of wCache2 at time 100; has returns
true and promotes key a past key b. -/
theorem cache_has_effects_spec_witness :
    (cacheKeys wCache2).Nodup ∧
    mapGet ( "a" ) wCache2.entries = some wEntryA ∧
    ¬ ((100 : Int) - wEntryA.timestamp > wCache2.ttl) ∧
    ((wCache2.has 100 ( "a" )).1 = true ∧
      (wCache2.has 100 ( "a" )).2.entries =
        mapDelete ( "a" ) wCache2.entries ++ [(( "a" ), wEntryA)] ∧
      (wCache2.has 100 ( "a" )).2.entries.getLast? = some (( "a" ), wEntryA) ∧
      ∀ p ∈ wCache2.entries, p.1 ≠ ( "a" ) →
        p ∈ (wCache2.has 100 ( "a" )).2.entries) :=
  ⟨by decide, rfl, by decide,
    (cache_has_effects_spec wCache2 100 ( "a" ) wEntryA (by decide) rfl).2
      (by decide)⟩

/-- Claim C6, amended: the cache evicts in least-recently-touched order
with recency updated on read and on fresh insertion: for a cache at
capacity with distinct keys and a nonempty oldest key, a set of a fresh
key evicts exactly the oldest (least recently touched) entry; a live get
promotes its entry, so a following fresh set at capacity evicts a
different key and the read entry survives; a set to an existing key in a
below-capacity cache leaves the key order (hence the recency order)
unchanged instead of promoting the entry. -/
theorem lru_touch_order_spec :
    (∀ (c : TranslationCache) (now : Int) (key result : String)
        (sid : ServiceId) (dl : Option String) (k₀ : String) (e₀ : CacheEntry)
        (rest : List (String × CacheEntry)),
      c.entries = (k₀, e₀) :: rest → (cacheKeys c).Nodup →
      c.entries.length = c.maxSize → key ∉ cacheKeys c → k₀ ≠ "" →
      (c.set now key result sid dl).entries =
        rest ++ [(key, CacheEntry.mk result now sid dl)]) ∧
    (∀ (c : TranslationCache) (now now2 : Int) (k : String) (e : CacheEntry)
        (key2 result : String) (sid : ServiceId) (dl : Option String),
      (cacheKeys c).Nodup → c.entries.length = c.maxSize →
      2 ≤ c.entries.length →
      (c.get now k).1 = some e → key2 ∉ cacheKeys (c.get now k).2 →
      k ∈ cacheKeys (((c.get now k).2).set now2 key2 result sid dl)) ∧
    (∀ (c : TranslationCache) (now : Int) (k result : String)
        (sid : ServiceId) (dl : Option String),
      k ∈ cacheKeys c → c.entries.length < c.maxSize →
      cacheKeys (c.set now k result sid dl) = cacheKeys c) := by
  refine ⟨?_, ?_, ?_⟩
  · intro c now key result sid dl k₀ e₀ rest hent hnd hlen hfresh hk₀
    have hnd2 : (k₀ :: rest.map Prod.fst).Nodup := by
      unfold cacheKeys at hnd
      rw [hent] at hnd
      simpa using hnd
    have hk₀rest : k₀ ∉ rest.map Prod.fst := (List.nodup_cons.mp hnd2).1
    have hkeyrest : key ∉ rest.map Prod.fst := by
      intro hm
      apply hfresh
      unfold cacheKeys
      rw [hent]
      simp [hm]
    have hlen2 : ((k₀, e₀) :: rest).length ≥ c.maxSize := by
      rw [← hent]
      omega
    unfold TranslationCache.set
    rw [hent]
    dsimp only
    rw [if_pos hlen2]
    dsimp only [List.head?]
    rw [if_neg (by simp [hk₀])]
    rw [mapDelete_cons_self, mapDelete_eq_self hk₀rest]
    exact mapSet_of_not_mem hkeyrest _
  · intro c now now2 k e key2 result sid dl hnd hlen h2 hget hfresh
    cases hm : mapGet k c.entries with
    | none =>
      rw [get_absent hm] at hget
      exact absurd hget (by simp)
    | some entry =>
      by_cases hexp : now - entry.timestamp > c.ttl
      · rw [get_expired hm hexp] at hget
        exact absurd hget (by simp)
      · rw [get_live hm hexp] at hget hfresh ⊢
        have hee : entry = e := by simpa using hget
        subst hee
        have hknotind : k ∉ (mapDelete k c.entries).map Prod.fst :=
          not_mem_keys_mapDelete k c.entries
        have hkmem : k ∈ c.entries.map Prod.fst := mapGet_mem_keys hm
        have hlend : (mapDelete k c.entries).length + 1 = c.entries.length :=
          length_mapDelete hnd hkmem
        cases hdm : mapDelete k c.entries with
        | nil =>
          rw [hdm] at hlend
          simp at hlend
          omega
        | cons p d' =>
          obtain ⟨k₁, e₁⟩ := p
          have hk₁ne : k₁ ≠ k := by
            intro h
            apply hknotind
            rw [hdm, h]
            simp
          unfold TranslationCache.set
          unfold cacheKeys
          dsimp only [List.cons_append]
          rw [hdm] at hlend
          have hlenX : ((k₁, e₁) :: (d' ++ [(k, entry)])).length ≥ c.maxSize := by
            simp only [List.length_append, List.length_cons, List.length_singleton]
            simp only [List.length_cons] at hlend
            omega
          rw [if_pos hlenX]
          dsimp only [List.head?]
          have hfreshX : key2
              ∉ ((k₁, e₁) :: (d' ++ [(k, entry)])).map Prod.fst := by
            intro hmem
            apply hfresh
            unfold cacheKeys
            dsimp only
            rw [hdm]
            simpa using hmem
          by_cases hk₁s : k₁ = ""
          · rw [if_pos (by simp [hk₁s])]
            rw [mapSet_of_not_mem hfreshX _]
            simp
          · rw [if_neg (by simp [hk₁s])]
            have hkX : ((k, entry) : String × CacheEntry)
                ∈ (k₁, e₁) :: (d' ++ [(k, entry)]) := by simp
            have hsurv : ((k, entry) : String × CacheEntry)
                ∈ mapDelete k₁ ((k₁, e₁) :: (d' ++ [(k, entry)])) :=
              mem_mapDelete_of_ne hkX (by simpa using hk₁ne.symm)
            have hfresh2 : key2
                ∉ (mapDelete k₁ ((k₁, e₁) :: (d' ++ [(k, entry)]))).map Prod.fst :=
              fun hmem => hfreshX (keys_mapDelete_subset _ _ hmem)
            rw [mapSet_of_not_mem hfresh2 _]
            refine List.mem_map.mpr ⟨(k, entry), ?_, rfl⟩
            exact List.mem_append_left _ hsurv
  · intro c now k result sid dl hmem hlt
    unfold TranslationCache.set
    unfold cacheKeys
    dsimp only
    rw [if_neg (by omega : ¬ c.entries.length ≥ c.maxSize)]
    exact keys_mapSet_of_mem hmem _

/-- Witness for claim C6: wCache2 is at capacity 2 with distinct keys a, b
and a oldest; a fresh set of key c evicts exactly a, appending c at the
most-recent end. -/
theorem lru_touch_order_spec_witness :
    wCache2.entries = ( "a", wEntryA ) :: [( "b", wEntryB )] ∧
    (wCache2.set 50 ( "c" ) ( "vc" ) ServiceId.deepl none).entries =
      [( "b", wEntryB ), (( "c" ), CacheEntry.mk ( "vc" ) 50 ServiceId.deepl none)] :=
  ⟨rfl, by
    have h := lru_touch_order_spec.1 wCache2 50 ( "c" ) ( "vc" ) ServiceId.deepl
      none ( "a" ) wEntryA [( "b", wEntryB )] rfl (by decide) (by decide)
      (by decide) (by decide)
    simpa using h⟩

-- ===========================================================================
-- Step lemmas for the fallback loop
-- ===========================================================================

/-- A list with a cons on the right of an append is nonempty. -/
theorem isEmpty_append_cons (pre : List ServiceId) (b : ServiceId)
    (bs : List ServiceId) : (pre ++ b :: bs).isEmpty = false := by
  cases pre <;> rfl

/-- Loop step: a successful translate returns immediately with
usedFallback decided by the loop index and cached = false; only this
provider is invoked. -/
theorem fallbackLoop_cons_ok (registry : Registry) (apiKeys : StoredApiKeys)
    (params : TranslateParams) (id : ServiceId) (rest : List ServiceId)
    (i : Nat) (le : Option TranslationError)
    (h : TranslationServiceHandler) (r : TranslateResult)
    (hreg : registry id = some h)
    (hok : h.translate (resolveParams params apiKeys id) = Except.ok r) :
    fallbackLoop registry apiKeys params (id :: rest) i le =
      (Except.ok (TranslateResultWithMeta.mk r (decide (0 < i)) false), [id]) := by
  simp only [fallbackLoop]
  rw [hreg]
  dsimp only
  rw [hok]

/-- Loop step: a classified fallback-triggering error with providers
remaining records the error as last error and continues. -/
theorem fallbackLoop_classified_cont (registry : Registry)
    (apiKeys : StoredApiKeys) (params : TranslateParams) (id : ServiceId)
    (rest : List ServiceId) (i : Nat) (le : Option TranslationError)
    (h : TranslationServiceHandler) (e : TranslationError)
    (hreg : registry id = some h)
    (htr : h.translate (resolveParams params apiKeys id) =
      Except.error (ThrownJsValue.classified e))
    (hfb : e.shouldTriggerFallback = true)
    (hne : rest.isEmpty = false) :
    fallbackLoop registry apiKeys params (id :: rest) i le =
      ((fallbackLoop registry apiKeys params rest (i + 1) (some e)).1,
        id :: (fallbackLoop registry apiKeys params rest (i + 1) (some e)).2) := by
  simp only [fallbackLoop]
  rw [hreg]
  dsimp only
  rw [htr]
  dsimp only
  rw [hfb, hne]
  simp

/-- Loop step: a classified fallback-triggering error on the last
provider throws that error. -/
theorem fallbackLoop_classified_last (registry : Registry)
    (apiKeys : StoredApiKeys) (params : TranslateParams) (id : ServiceId)
    (i : Nat) (le : Option TranslationError)
    (h : TranslationServiceHandler) (e : TranslationError)
    (hreg : registry id = some h)
    (htr : h.translate (resolveParams params apiKeys id) =
      Except.error (ThrownJsValue.classified e))
    (hfb : e.shouldTriggerFallback = true) :
    fallbackLoop registry apiKeys params [id] i le = (Except.error e, [id]) := by
  simp only [fallbackLoop]
  rw [hreg]
  dsimp only
  rw [htr]
  dsimp only
  rw [hfb]
  simp

/-- Loop step: a classified non-fallback-triggering error is re-raised
immediately, regardless of remaining providers. -/
theorem fallbackLoop_classified_nofb (registry : Registry)
    (apiKeys : StoredApiKeys) (params : TranslateParams) (id : ServiceId)
    (rest : List ServiceId) (i : Nat) (le : Option TranslationError)
    (h : TranslationServiceHandler) (e : TranslationError)
    (hreg : registry id = some h)
    (htr : h.translate (resolveParams params apiKeys id) =
      Except.error (ThrownJsValue.classified e))
    (hfb : e.shouldTriggerFallback = false) :
    fallbackLoop registry apiKeys params (id :: rest) i le =
      (Except.error e, [id]) := by
  simp only [fallbackLoop]
  rw [hreg]
  dsimp only
  rw [htr]
  dsimp only
  rw [hfb]
  simp

/-- Loop step: an unclassified throw on the last provider throws the
wrapped SERVICE_UNAVAILABLE error. -/
theorem fallbackLoop_other_last (registry : Registry)
    (apiKeys : StoredApiKeys) (params : TranslateParams) (id : ServiceId)
    (i : Nat) (le : Option TranslationError)
    (h : TranslationServiceHandler) (s : String)
    (hreg : registry id = some h)
    (htr : h.translate (resolveParams params apiKeys id) =
      Except.error (ThrownJsValue.other s)) :
    fallbackLoop registry apiKeys params [id] i le =
      (Except.error (TranslationError.mk
        TranslationErrorCode.SERVICE_UNAVAILABLE s (some id) none), [id]) := by
  simp only [fallbackLoop]
  rw [hreg]
  dsimp only
  rw [htr]
  dsimp only
  simp

/-- Loop step: an unclassified throw with providers remaining records the
wrapped SERVICE_UNAVAILABLE error as last error and continues. -/
theorem fallbackLoop_other_cont (registry : Registry)
    (apiKeys : StoredApiKeys) (params : TranslateParams) (id : ServiceId)
    (rest : List ServiceId) (i : Nat) (le : Option TranslationError)
    (h : TranslationServiceHandler) (s : String)
    (hreg : registry id = some h)
    (htr : h.translate (resolveParams params apiKeys id) =
      Except.error (ThrownJsValue.other s))
    (hne : rest.isEmpty = false) :
    fallbackLoop registry apiKeys params (id :: rest) i le =
      ((fallbackLoop registry apiKeys params rest (i + 1)
          (some (TranslationError.mk
            TranslationErrorCode.SERVICE_UNAVAILABLE s (some id) none))).1,
        id :: (fallbackLoop registry apiKeys params rest (i + 1)
          (some (TranslationError.mk
            TranslationErrorCode.SERVICE_UNAVAILABLE s (some id) none))).2) := by
  simp only [fallbackLoop]
  rw [hreg]
  dsimp only
  rw [htr]
  dsimp only
  rw [hne]
  simp

/-- A prefix of providers that all fail with classified
fallback-triggering errors is traversed completely: each one is invoked,
the loop index advances past it, and the last error becomes the error of
the last prefix element. -/
theorem fallbackLoop_skip (registry : Registry) (apiKeys : StoredApiKeys)
    (params : TranslateParams) (H : ServiceId → TranslationServiceHandler)
    (E : ServiceId → TranslationError) :
    ∀ (pre : List ServiceId) (b : ServiceId) (bs : List ServiceId)
      (i : Nat) (le : Option TranslationError),
      (∀ jd ∈ pre, registry jd = some (H jd) ∧
        (H jd).translate (resolveParams params apiKeys jd) =
          Except.error (ThrownJsValue.classified (E jd)) ∧
        (E jd).shouldTriggerFallback = true) →
      fallbackLoop registry apiKeys params (pre ++ b :: bs) i le =
        ((fallbackLoop registry apiKeys params (b :: bs) (i + pre.length)
            (pre.foldl (fun _ jd => some (E jd)) le)).1,
          pre ++ (fallbackLoop registry apiKeys params (b :: bs) (i + pre.length)
            (pre.foldl (fun _ jd => some (E jd)) le)).2) := by
  intro pre
  induction pre with
  | nil =>
    intro b bs i le _
    simp
  | cons jd pre ih =>
    intro b bs i le hpre
    obtain ⟨hreg, htr, hfb⟩ := hpre jd (List.mem_cons_self jd pre)
    rw [List.cons_append]
    rw [fallbackLoop_classified_cont registry apiKeys params jd (pre ++ b :: bs)
      i le (H jd) (E jd) hreg htr hfb (isEmpty_append_cons pre b bs)]
    rw [ih b bs (i + 1) (some (E jd))
      (fun x hx => hpre x (List.mem_cons_of_mem jd hx))]
    have harith : i + 1 + pre.length = i + (jd :: pre).length := by
      simp only [List.length_cons]
      omega
    rw [harith]
    simp only [List.foldl_cons, List.cons_append]

/-- When the filtered available list is nonempty, translateWithFallback
reduces to the fallback loop over it. -/
theorem translateWithFallback_eq_loop (registry : Registry)
    (params : TranslateParams) (prefs : UserPreferences)
    (apiKeys : StoredApiKeys) (avail : List ServiceId)
    (havail : prefs.fallbackOrder.filter
      (fun id => isServiceAvailable registry id apiKeys) = avail)
    (hne : avail ≠ []) :
    translateWithFallback registry params prefs apiKeys =
      fallbackLoop registry apiKeys params avail 0 none := by
  unfold translateWithFallback
  cases hord : prefs.fallbackOrder with
  | nil =>
    rw [hord] at havail
    simp at havail
    exact absurd havail hne
  | cons x xs =>
    rw [hord] at havail
    have hav : avail.isEmpty = false := by
      cases avail with
      | nil => exact absurd rfl hne
      | cons y ys => rfl
    simp only [List.isEmpty_cons, Bool.false_eq_true, if_false, havail, hav]

-- ===========================================================================
-- Claims about the fallback orchestrator (C1, C2, C3, C10)
-- ===========================================================================

/-- Claim C1: if every available provider before position pre.length of
the filtered list fails with a classified fallback-triggering error and
the provider at that position succeeds, translateWithFallback returns that
result immediately with usedFallback deciding whether the index is
positive (false exactly when the succeeding provider is first) and
cached = false, and the invocation trace stops at the succeeding provider:
no later provider is invoked. -/
theorem translateWithFallback_success_spec (registry : Registry)
    (params : TranslateParams) (prefs : UserPreferences)
    (apiKeys : StoredApiKeys) (pre post : List ServiceId) (succId : ServiceId)
    (H : ServiceId → TranslationServiceHandler)
    (E : ServiceId → TranslationError)
    (h : TranslationServiceHandler) (r : TranslateResult)
    (havail : prefs.fallbackOrder.filter
      (fun id => isServiceAvailable registry id apiKeys) = pre ++ succId :: post)
    (hpre : ∀ jd ∈ pre, registry jd = some (H jd) ∧
      (H jd).translate (resolveParams params apiKeys jd) =
        Except.error (ThrownJsValue.classified (E jd)) ∧
      (E jd).shouldTriggerFallback = true)
    (hreg : registry succId = some h)
    (hok : h.translate (resolveParams params apiKeys succId) = Except.ok r) :
    translateWithFallback registry params prefs apiKeys =
      (Except.ok (TranslateResultWithMeta.mk r (decide (0 < pre.length)) false),
        pre ++ [succId]) ∧
    (decide (0 < pre.length) = false ↔ pre = []) := by
  constructor
  · rw [translateWithFallback_eq_loop registry params prefs apiKeys _ havail
      (by simp)]
    rw [fallbackLoop_skip registry apiKeys params H E pre succId post 0 none hpre]
    rw [fallbackLoop_cons_ok registry apiKeys params succId post
      (0 + pre.length) _ h r hreg hok]
    simp
  · simp [decide_eq_false_iff_not, Nat.pos_iff_ne_zero, List.length_eq_zero]

/-- Witness for claim C1: google-scraper fails with a network error,
lingva succeeds; the result is the lingva translation with
usedFallback = true and cached = false, and only those two providers are
invoked. -/
theorem translateWithFallback_success_spec_witness :
    (wPrefs.fallbackOrder.filter
      (fun id => isServiceAvailable wRegistry id wKeys)
      = [ServiceId.googleScraper] ++ ServiceId.lingva :: []) ∧
    translateWithFallback wRegistry wParams wPrefs wKeys =
      (Except.ok (TranslateResultWithMeta.mk wOkResult true false),
        [ServiceId.googleScraper, ServiceId.lingva]) :=
  ⟨rfl, (translateWithFallback_success_spec wRegistry wParams wPrefs wKeys
    [ServiceId.googleScraper] [] ServiceId.lingva wH wE wOkHandler wOkResult
    rfl
    (by
      intro jd hjd
      simp only [List.mem_singleton] at hjd
      subst hjd
      exact ⟨rfl, rfl, rfl⟩)
    rfl rfl).1⟩

/-- Claim C2: if, after any prefix of classified fallback-triggering
failures, a provider fails with a classified error of kind
INVALID_LANGUAGE or TEXT_TOO_LONG, translateWithFallback re-raises that
exact error and the invocation trace stops at that provider: no later
provider is invoked. -/
theorem translateWithFallback_nonfallback_spec (registry : Registry)
    (params : TranslateParams) (prefs : UserPreferences)
    (apiKeys : StoredApiKeys) (pre post : List ServiceId) (failId : ServiceId)
    (H : ServiceId → TranslationServiceHandler)
    (E : ServiceId → TranslationError)
    (h : TranslationServiceHandler) (e : TranslationError)
    (havail : prefs.fallbackOrder.filter
      (fun id => isServiceAvailable registry id apiKeys) = pre ++ failId :: post)
    (hpre : ∀ jd ∈ pre, registry jd = some (H jd) ∧
      (H jd).translate (resolveParams params apiKeys jd) =
        Except.error (ThrownJsValue.classified (E jd)) ∧
      (E jd).shouldTriggerFallback = true)
    (hreg : registry failId = some h)
    (htr : h.translate (resolveParams params apiKeys failId) =
      Except.error (ThrownJsValue.classified e))
    (hcode : e.code = TranslationErrorCode.INVALID_LANGUAGE ∨
      e.code = TranslationErrorCode.TEXT_TOO_LONG) :
    translateWithFallback registry params prefs apiKeys =
      (Except.error e, pre ++ [failId]) := by
  have hfb : e.shouldTriggerFallback = false := by
    unfold TranslationError.shouldTriggerFallback shouldFallback
    rcases hcode with h1 | h1 <;> rw [h1] <;> rfl
  rw [translateWithFallback_eq_loop registry params prefs apiKeys _ havail
    (by simp)]
  rw [fallbackLoop_skip registry apiKeys params H E pre failId post 0 none hpre]
  rw [fallbackLoop_classified_nofb registry apiKeys params failId post
    (0 + pre.length) _ h e hreg htr hfb]

/-- Witness for claim C2: google-scraper fails with invalid-language; the
call rejects with that very error and lingva is never invoked. -/
theorem translateWithFallback_nonfallback_spec_witness :
    (wPrefs.fallbackOrder.filter
      (fun id => isServiceAvailable wRegistryNoFb id wKeys)
      = [] ++ ServiceId.googleScraper :: [ServiceId.lingva]) ∧
    translateWithFallback wRegistryNoFb wParams wPrefs wKeys =
      (Except.error wInvalidLangError, [ServiceId.googleScraper]) :=
  ⟨rfl, translateWithFallback_nonfallback_spec wRegistryNoFb wParams wPrefs
    wKeys [] [ServiceId.lingva] ServiceId.googleScraper wH wE
    wInvalidLangHandler wInvalidLangError rfl
    (by
      intro jd hjd
      exact absurd hjd (List.not_mem_nil jd))
    rfl rfl (Or.inl rfl)⟩

/-- Claim C3: when every provider of the nonempty filtered list fails with
a classified fallback-triggering error, translateWithFallback rejects with
the classified error of the last provider, after invoking all of them in
order. -/
theorem translateWithFallback_all_fail_spec (registry : Registry)
    (params : TranslateParams) (prefs : UserPreferences)
    (apiKeys : StoredApiKeys) (pre : List ServiceId) (lastId : ServiceId)
    (H : ServiceId → TranslationServiceHandler)
    (E : ServiceId → TranslationError)
    (havail : prefs.fallbackOrder.filter
      (fun id => isServiceAvailable registry id apiKeys) = pre ++ [lastId])
    (hall : ∀ jd ∈ pre ++ [lastId], registry jd = some (H jd) ∧
      (H jd).translate (resolveParams params apiKeys jd) =
        Except.error (ThrownJsValue.classified (E jd)) ∧
      (E jd).shouldTriggerFallback = true) :
    translateWithFallback registry params prefs apiKeys =
      (Except.error (E lastId), pre ++ [lastId]) := by
  obtain ⟨hreg, htr, hfb⟩ := hall lastId (by simp)
  rw [translateWithFallback_eq_loop registry params prefs apiKeys _ havail
    (by simp)]
  rw [fallbackLoop_skip registry apiKeys params H E pre lastId [] 0 none
    (fun x hx => hall x (List.mem_append_left _ hx))]
  rw [fallbackLoop_classified_last registry apiKeys params lastId
    (0 + pre.length) _ (H lastId) (E lastId) hreg htr hfb]

/-- Witness for claim C3: google-scraper fails with a network error and
lingva fails with a service-unavailable error; the call rejects with the
lingva error, the last one, not the first. -/
theorem translateWithFallback_all_fail_spec_witness :
    (wPrefs.fallbackOrder.filter
      (fun id => isServiceAvailable wRegistryAllFail id wKeys)
      = [ServiceId.googleScraper] ++ [ServiceId.lingva]) ∧
    translateWithFallback wRegistryAllFail wParams wPrefs wKeys =
      (Except.error wLingvaError, [ServiceId.googleScraper, ServiceId.lingva]) :=
  ⟨rfl, translateWithFallback_all_fail_spec wRegistryAllFail wParams wPrefs
    wKeys [ServiceId.googleScraper] ServiceId.lingva wH wE rfl
    (by
      intro jd hjd
      simp only [List.mem_append, List.mem_singleton] at hjd
      rcases hjd with h1 | h1 <;> subst h1 <;> exact ⟨rfl, rfl, rfl⟩)⟩

/-- Claim C10: if, after any prefix of classified fallback-triggering
failures, a provider throws a value that is not a classified
TranslationError, the orchestrator wraps it as a SERVICE_UNAVAILABLE error
carrying that provider id and the String(error) text; it throws the
wrapped error when the provider was last, and otherwise records it as last
error and continues the loop with the remaining providers. -/
theorem translateWithFallback_unclassified_spec (registry : Registry)
    (params : TranslateParams) (prefs : UserPreferences)
    (apiKeys : StoredApiKeys) (pre post : List ServiceId) (failId : ServiceId)
    (H : ServiceId → TranslationServiceHandler)
    (E : ServiceId → TranslationError)
    (h : TranslationServiceHandler) (s : String)
    (havail : prefs.fallbackOrder.filter
      (fun id => isServiceAvailable registry id apiKeys) = pre ++ failId :: post)
    (hpre : ∀ jd ∈ pre, registry jd = some (H jd) ∧
      (H jd).translate (resolveParams params apiKeys jd) =
        Except.error (ThrownJsValue.classified (E jd)) ∧
      (E jd).shouldTriggerFallback = true)
    (hreg : registry failId = some h)
    (htr : h.translate (resolveParams params apiKeys failId) =
      Except.error (ThrownJsValue.other s)) :
    (post = [] →
      translateWithFallback registry params prefs apiKeys =
        (Except.error (TranslationError.mk
          TranslationErrorCode.SERVICE_UNAVAILABLE s (some failId) none),
          pre ++ [failId])) ∧
    (∀ nid nrest, post = nid :: nrest →
      translateWithFallback registry params prefs apiKeys =
        ((fallbackLoop registry apiKeys params post (pre.length + 1)
            (some (TranslationError.mk
              TranslationErrorCode.SERVICE_UNAVAILABLE s (some failId) none))).1,
          pre ++ failId ::
            (fallbackLoop registry apiKeys params post (pre.length + 1)
              (some (TranslationError.mk
                TranslationErrorCode.SERVICE_UNAVAILABLE s (some failId) none))).2)) := by
  constructor
  · intro hpost
    subst hpost
    rw [translateWithFallback_eq_loop registry params prefs apiKeys _ havail
      (by simp)]
    rw [fallbackLoop_skip registry apiKeys params H E pre failId [] 0 none hpre]
    rw [fallbackLoop_other_last registry apiKeys params failId
      (0 + pre.length) _ h s hreg htr]
  · intro nid nrest hpost
    subst hpost
    rw [translateWithFallback_eq_loop registry params prefs apiKeys _ havail
      (by simp)]
    rw [fallbackLoop_skip registry apiKeys params H E pre failId (nid :: nrest)
      0 none hpre]
    rw [fallbackLoop_other_cont registry apiKeys params failId (nid :: nrest)
      (0 + pre.length) _ h s hreg htr rfl]
    simp [Nat.add_comm]

/-- Witness for claim C10: the only provider throws a raw TypeError; the
call rejects with the wrapped SERVICE_UNAVAILABLE error carrying the
provider id and the stringified value. -/
theorem translateWithFallback_unclassified_spec_witness :
    (wPrefsSingle.fallbackOrder.filter
      (fun id => isServiceAvailable wRegistryRaw id wKeys)
      = [] ++ ServiceId.googleScraper :: []) ∧
    translateWithFallback wRegistryRaw wParams wPrefsSingle wKeys =
      (Except.error (TranslationError.mk
        TranslationErrorCode.SERVICE_UNAVAILABLE ( "TypeError: boom" )
        (some ServiceId.googleScraper) none),
        [ServiceId.googleScraper]) :=
  ⟨rfl, (translateWithFallback_unclassified_spec wRegistryRaw wParams
    wPrefsSingle wKeys [] [] ServiceId.googleScraper wH wE wRawHandler
    ( "TypeError: boom" ) rfl
    (by
      intro jd hjd
      exact absurd hjd (List.not_mem_nil jd))
    rfl rfl).1 rfl⟩
